import Mathlib

/-!
Verification of the vaidu-ai trust-layer core against its specification.

The Python sources are shallowly embedded:
* text is `List Char` (one entry per Unicode code point, as Python strings);
* Python's `str.lower` is `lowerStr` (the trigger vocabularies are ASCII);
* substring tests (`in`) are `isSub`;
* the model gateway, translation and sanitizer collaborators are opaque
  oracle functions (the spec places them out of scope);
* Python floats are modelled as exact rationals;
* fallible code paths (Python exceptions such as TypeError on malformed
  payloads) return `Option`/`Except` values.
-/

/-- Text: Python strings as lists of code points. -/
abbrev Str := List Char

/-- Turn a Lean string literal into embedded text. -/
def S (s : String) : Str := s.toList

/-- Python `str.lower` restricted to the ASCII range used by every keyword
table in the sources. -/
def lowerStr (s : Str) : Str := s.map Char.toLower

/-- Python whitespace, as stripped by `str.strip`. -/
def isWS (c : Char) : Bool :=
  c = ' ' || c = '\t' || c = '\n' || c = '\r' || c = '\x0b' || c = '\x0c'

/-- Drop leading whitespace (front half of `str.strip`). -/
def dropLeading (s : Str) : Str := s.dropWhile isWS

/-- Drop trailing whitespace (back half of `str.strip`). -/
def dropTrailing (s : Str) : Str := (s.reverse.dropWhile isWS).reverse

/-- Python `str.strip`. -/
def stripStr (s : Str) : Str := dropTrailing (dropLeading s)

/-- Python substring containment `p in s`. -/
def isSub (p s : Str) : Bool := decide (p <:+: s)

/-! ## utils/response_validator.py -/

/-- Source `DANGEROUS_MEDICAL_CLAIMS`: definitive diagnoses paired with the
corrective note appended for each. -/
def DANGEROUS_MEDICAL_CLAIMS : List (Str × Str) :=
  [ (S "you have cancer",        S "Please visit a doctor for proper diagnosis."),
    (S "you have diabetes",      S "Please get a blood sugar test at your nearest PHC."),
    (S "you have tuberculosis",  S "Please visit DOTS center for free TB test."),
    (S "you have hiv",           S "Please visit PHC for confidential testing."),
    (S "you have heart disease", S "Please visit a cardiologist for proper evaluation."),
    (S "you have kidney failure",S "Please visit a doctor immediately for evaluation."),
    (S "you are diabetic",       S "Please get a blood sugar test at your nearest PHC.") ]

/-- Source `DOSAGE_PATTERNS`: dosage-instruction red flags. -/
def DOSAGE_PATTERNS : List Str :=
  [ S "mg twice daily", S "mg once daily", S "mg three times",
    S "inject insulin", S "take 500mg", S "take 250mg", S "take 1000mg" ]

/-- Source `REQUIRED_UNCERTAINTY_PHRASES`. -/
def REQUIRED_UNCERTAINTY_PHRASES : List Str :=
  [ S "consult", S "doctor", S "phc", S "may", S "could", S "possible",
    S "suggest", S "visit", S "check", S "monitor", S "unclear" ]

/-- Source `CLINICAL_TOOLS`: node names requiring uncertainty language. -/
def CLINICAL_TOOLS : List Str :=
  [ S "triage_symptoms", S "analyze_scan", S "node_risk_screen",
    S "analyze_skin", S "maternal_guidance" ]

/-- The overconfidence vocabulary local to `_check_hallucination_risk`. -/
def OVERCONFIDENT_PHRASES : List Str :=
  [ S "you definitely have", S "you certainly have", S "100% sure",
    S "guaranteed", S "no doubt", S "i am certain", S "confirmed diagnosis" ]

/-- Replacement used when the input is empty or shorter than 10 characters. -/
def FALLBACK_SHORT : Str :=
  S "Unable to assess. Please visit nearest PHC for proper examination."

/-- Full-replacement string of the overconfidence branch. -/
def SAFE_REDIRECT : Str :=
  S "Based on the information provided, a proper medical assessment is needed. Please visit your nearest PHC or qualified doctor. If this is an emergency, call 108 immediately."

/-- The one dosage warning, appended at most once. -/
def DOSAGE_WARNING : Str :=
  S "⚠️ Dosage shown is AI-generated. Always follow your doctor\x27s prescription for exact dosage."

/-- The uncertainty-language reminder for clinical tools. -/
def UNCERTAINTY_WARNING : Str :=
  S "⚠️ This is AI guidance only. Please confirm with a qualified doctor before taking any action."

/-- Prefix of each dangerous-claim corrective note. -/
def NOTE_PREFIX : Str := S "⚠️ Note: "

/-- Source `_check_hallucination_risk`: does the lowered text contain an
overconfidence phrase? -/
def check_hallucination_risk (text : Str) : Bool :=
  OVERCONFIDENT_PHRASES.any fun p => isSub p (lowerStr text)

/-- Warnings collected from the dangerous definitive-claim table (the
first loop of `validate_response`). -/
def dangerousWarnings (textLower : Str) : List Str :=
  DANGEROUS_MEDICAL_CLAIMS.filterMap fun cr =>
    if isSub cr.1 textLower then some (NOTE_PREFIX ++ cr.2) else none

/-- The dosage warning (the second loop, which breaks after one match). -/
def dosageWarnings (textLower : Str) : List Str :=
  if DOSAGE_PATTERNS.any (fun p => isSub p textLower) then [DOSAGE_WARNING] else []

/-- The uncertainty-language reminder for clinical tools on long texts. -/
def uncertaintyWarnings (tool_name text textLower : Str) : List Str :=
  if decide (tool_name ∈ CLINICAL_TOOLS) && decide (100 < text.length)
      && !(REQUIRED_UNCERTAINTY_PHRASES.any fun p => isSub p textLower)
  then [UNCERTAINTY_WARNING] else []

/-- Source `validate_response(text, tool_name)`. -/
def validate_response (text tool_name : Str) : Str :=
  if text = [] ∨ (stripStr text).length < 10 then FALLBACK_SHORT
  else if check_hallucination_risk text then SAFE_REDIRECT
  else
    let warnings := dangerousWarnings (lowerStr text) ++ dosageWarnings (lowerStr text)
      ++ uncertaintyWarnings tool_name text (lowerStr text)
    if warnings = [] then text
    else text ++ S "\n\n" ++ List.intercalate (S "\n") warnings

/-! ## utils/config.py -/

/-- Source `DISCLAIMER` appended to the combined workflow summary.  Note that it
contains the word "Emergency". -/
def DISCLAIMER : Str :=
  S "\n\n⚠️ AI guidance only. Please consult a qualified doctor for diagnosis and treatment. Emergency అయితే వెంటనే 108 call చేయండి."

/-! ## agents/diabetes_graph.py -/

/-- Keywords that force severity RED in `node_summarize`. -/
def OVERRIDE_KEYWORDS : List Str :=
  [ S "proliferative", S "stage 4", S "stage 5", S "emergency" ]

/-- The slice of an AMIE diagnostic-state dict read by the workflow:
`session_id` and `urgency` (each absent when the dict lacks the key). -/
structure AmieState where
  session_id : Option Str
  urgency : Option Str
deriving DecidableEq

/-- Source `DiabetesState`: the LangGraph workflow state. -/
structure GState where
  query : Str
  lang : Str
  age : Int
  image_bytes : Option (List Nat)
  check_type : Str
  risk_result : Str
  eye_result : Str
  foot_result : Str
  diet_result : Str
  final : Str
  severity : Str
  error : Str
  diagnostic_mode : Bool
  amie_session_id : Option Str
  amie_state : Option AmieState

/-- The external collaborators of the workflow (model gateway per call
site, translation, sanitizer, AMIE session oracles).  Prompt templates
are out of scope per the spec, so each model call is an opaque function
of the data interpolated into its prompt. -/
structure Oracles where
  sanitize : Str → Str
  to_english : Str → Str → Str
  to_local : Str → Str → Str
  riskModel : Str → Int → Str
  eyeModel : List Nat → Str
  footModel : List Nat → Str
  dietModel : Str → Str
  amie_start : Str → Str → AmieState
  amie_summary : Option Str → Str → Str

/-- Python truthiness of `state.get("image_bytes")`: a non-`None`,
non-empty byte string. -/
def truthyBytes : Option (List Nat) → Bool
  | none => false
  | some [] => false
  | some (_ :: _) => true

/-- The keyword scan deriving the coarse severity in `node_risk_screen`. -/
def riskKeywordSeverity (v : Str) : Str :=
  if isSub (S "high") (lowerStr v) then S "RED"
  else if isSub (S "medium") (lowerStr v) then S "YELLOW"
  else S "GREEN"

/-- Source `node_risk_screen` (happy path; the gateway oracle is total). -/
def node_risk_screen (o : Oracles) (st : GState) : GState :=
  let clean := o.sanitize st.query
  let en := o.to_english clean st.lang
  let result := validate_response (o.riskModel en st.age) (S "node_risk_screen")
  { st with risk_result := result, severity := riskKeywordSeverity result }

/-- Fixed guidance returned by `node_eye_check` when no photo is used. -/
def EYE_NO_PHOTO : Str :=
  S "Eye photo not provided. Recommend annual retinal screening for all diabetic patients. Visit PHC or eye camp for free screening."

/-- Fixed guidance returned by `node_foot_check` when no photo is used. -/
def FOOT_NO_PHOTO : Str :=
  S "Foot photo not provided. Daily foot inspection recommended for all diabetic patients. Check for: cuts, blisters, redness, swelling, numbness."

/-- Core of `node_eye_check`: the produced text together with whether the
image model was called. -/
def node_eye_check_core (o : Oracles) (image_bytes : Option (List Nat))
    (check_type : Str) : Str × Bool :=
  if truthyBytes image_bytes
      && (decide (check_type = S "retinopathy") || decide (check_type = S "full")) then
    (validate_response (o.eyeModel (image_bytes.getD [])) (S "node_eye_check"), true)
  else (EYE_NO_PHOTO, false)

/-- Core of `node_foot_check`. -/
def node_foot_check_core (o : Oracles) (image_bytes : Option (List Nat))
    (check_type : Str) : Str × Bool :=
  if truthyBytes image_bytes
      && (decide (check_type = S "foot") || decide (check_type = S "full")) then
    (validate_response (o.footModel (image_bytes.getD [])) (S "node_foot_check"), true)
  else (FOOT_NO_PHOTO, false)

/-- Source `node_eye_check` as a state update. -/
def node_eye_check (o : Oracles) (st : GState) : GState :=
  { st with eye_result := (node_eye_check_core o st.image_bytes st.check_type).1 }

/-- Source `node_foot_check` as a state update. -/
def node_foot_check (o : Oracles) (st : GState) : GState :=
  { st with foot_result := (node_foot_check_core o st.image_bytes st.check_type).1 }

/-- Source `node_diet_advice`. -/
def node_diet_advice (o : Oracles) (st : GState) : GState :=
  let clean := o.sanitize st.query
  let en := o.to_english clean st.lang
  { st with diet_result := validate_response (o.dietModel en) (S "node_diet_advice") }

/-- Source `node_amie_diagnostic`: a no-op unless `diagnostic_mode`; passes the
existing state through when a session id is set; otherwise starts a new
session via the store. -/
def node_amie_diagnostic (o : Oracles) (st : GState) : GState :=
  if !st.diagnostic_mode then st
  else if st.amie_session_id.isSome then st
  else
    let a := o.amie_start st.query st.lang
    { st with amie_session_id := a.session_id, amie_state := some a }

/-- The labelled, non-empty step results, in the fixed order of
`node_summarize`. -/
def summaryParts (st : GState) : List Str :=
  (if st.risk_result ≠ [] then [S "**Risk Assessment:**\n" ++ st.risk_result] else [])
  ++ (if st.eye_result ≠ [] then [S "**Eye Health:**\n" ++ st.eye_result] else [])
  ++ (if st.foot_result ≠ [] then [S "**Foot Health:**\n" ++ st.foot_result] else [])
  ++ (if st.diet_result ≠ [] then [S "**Diet Guidance:**\n" ++ st.diet_result] else [])

/-- Source `combined_en` as built in `node_summarize` (disclaimer appended
before the keyword scan and before translation). -/
def combinedEnglish (st : GState) : Str :=
  (if summaryParts st = [] then S "Unable to complete assessment."
   else List.intercalate (S "\n\n") (summaryParts st)) ++ DISCLAIMER

/-- Source `node_summarize`. -/
def node_summarize (o : Oracles) (st : GState) : GState :=
  if st.diagnostic_mode && st.amie_state.isSome then
    { st with final := o.amie_summary st.amie_session_id st.lang,
              severity := ((st.amie_state.bind AmieState.urgency).getD (S "MEDIUM")) }
  else
    let combined_en := combinedEnglish st
    let severity :=
      if OVERRIDE_KEYWORDS.any (fun w => isSub w (lowerStr combined_en))
      then S "RED" else st.severity
    { st with final := o.to_local combined_en st.lang, severity := severity }

/-- Source `route_after_risk`: pure function of `check_type`. -/
def route_after_risk (ct : Str) : Str :=
  if ct = S "retinopathy" ∨ ct = S "full" then S "eye_check"
  else if ct = S "foot" then S "foot_check"
  else if ct = S "diet" then S "diet_advice"
  else S "summarize"

/-- The fixed edges added by `_build_diabetes_graph` after the
conditional router. -/
def fixedNext (n : Str) : Option Str :=
  if n = S "eye_check" then some (S "foot_check")
  else if n = S "foot_check" then some (S "diet_advice")
  else if n = S "diet_advice" then some (S "amie_diagnostic")
  else if n = S "amie_diagnostic" then some (S "summarize")
  else none

/-- Follow the fixed edges from a node (fuel bounds the acyclic chain). -/
def chainFrom : Nat → Str → List Str
  | 0, _ => []
  | fuel + 1, n =>
    n :: (match fixedNext n with
          | none => []
          | some m => chainFrom fuel m)

/-- The node sequence one invocation visits, as a function of
`check_type`: entry node, then the routed chain. -/
def visitedNodes (ct : Str) : List Str :=
  S "risk_screen" :: chainFrom 6 (route_after_risk ct)

/-- Dispatch one graph node by name. -/
def runNode (o : Oracles) (st : GState) (name : Str) : GState :=
  if name = S "risk_screen" then node_risk_screen o st
  else if name = S "eye_check" then node_eye_check o st
  else if name = S "foot_check" then node_foot_check o st
  else if name = S "diet_advice" then node_diet_advice o st
  else if name = S "amie_diagnostic" then node_amie_diagnostic o st
  else if name = S "summarize" then node_summarize o st
  else st

/-- The initial state assembled by `run_diabetes_workflow`. -/
def initialGState (query lang : Str) (age : Int) (image_bytes : Option (List Nat))
    (check_type : Str) (diagnostic_mode : Bool) (amie_session_id : Option Str)
    (amie_state : Option AmieState) : GState :=
  { query := query, lang := lang, age := age, image_bytes := image_bytes,
    check_type := check_type, risk_result := [], eye_result := [],
    foot_result := [], diet_result := [], final := [], severity := S "GREEN",
    error := [], diagnostic_mode := diagnostic_mode,
    amie_session_id := amie_session_id, amie_state := amie_state }

/-- One workflow run: execute the visited nodes in order. -/
def runWorkflow (o : Oracles) (st : GState) : GState :=
  (visitedNodes st.check_type).foldl (runNode o) st

/-- Severity scan the spec attributes to `node_risk_screen`: a keyword
scan of the *raw pre-validation* model text.  Modelled from the spec
sentence, for comparison with the source behaviour (claim C3). -/
def specRiskSeverityFromRaw (raw : Str) : Str :=
  if isSub (S "high") (lowerStr raw) then S "RED"
  else if isSub (S "medium") (lowerStr raw) then S "YELLOW"
  else S "GREEN"

/-! ## agents/amie_diagnostic.py -/

/-- Python values, for structured payloads (parsed JSON, audit data).
Floats are exact rationals. -/
inductive PyVal where
  | pnone : PyVal
  | pstr : Str → PyVal
  | pint : Int → PyVal
  | prat : ℚ → PyVal
  | plist : List PyVal → PyVal
  | pdict : List (Str × PyVal) → PyVal

/-- A Python dict: association list in insertion order (no duplicate
keys arise from the embedded code paths). -/
abbrev PyDict := List (Str × PyVal)

/-- A stored AMIE diagnostic state: the model-provided JSON payload plus
the keys the store always overwrites (`conversation_history`,
`iteration`; `session_id` is the store key itself). -/
structure DiagState where
  payload : PyDict
  conversation_history : List (Str × Str)
  iteration : Int

/-- Lookup in the session store (`session_id in self.conversation_states`). -/
def storeLookup (sid : Str) : List (Str × DiagState) → Option DiagState
  | [] => none
  | e :: rest => if sid = e.1 then some e.2 else storeLookup sid rest

/-- Write a session (dict assignment: update in place or append). -/
def storeSet (sid : Str) (v : DiagState) : List (Str × DiagState) → List (Str × DiagState)
  | [] => [(sid, v)]
  | e :: rest => if sid = e.1 then (sid, v) :: rest else e :: storeSet sid v rest

/-- The history entries appended for one answers map: physician question
then patient answer, per pair. -/
def expandAnswers (answers : List (Str × Str)) : List (Str × Str) :=
  (answers.map fun qa => [(S "physician", qa.1), (S "patient", qa.2)]).flatten

/-- The regex salvage `re.search(r..., result, re.DOTALL)` with pattern
open-brace dot-star close-brace: the substring from the first `\x7b` to
the last `\x7d` after it, if any. -/
def extractBraces (s : Str) : Option Str :=
  let afterFirst := s.dropWhile (fun c => c ≠ '\x7b')
  let rev := afterFirst.reverse.dropWhile (fun c => c ≠ '\x7d')
  match afterFirst, rev with
  | [], _ => none
  | _, [] => none
  | _ :: _, _ :: _ => some rev.reverse

/-- The two-tier parse policy: strict `json.loads`, then salvage the
brace-delimited substring and retry, else fail. -/
def twoTierParse (parseJson : Str → Option PyDict) (s : Str) : Option PyDict :=
  match parseJson s with
  | some d => some d
  | none =>
    match extractBraces s with
    | some sub => parseJson sub
    | none => none

/-- Source `continue_diagnostic_conversation(session_id, answers)`: unknown id
returns the error value; otherwise the Q/A pairs are appended to the
stored history (an in-place mutation of the stored dict, modelled by
writing the mutated state back), the model revises the differential, and
on parse failure the mutated state is returned as-is.  The model call is
an oracle of the state and answers interpolated into the prompt. -/
def continue_diagnostic_conversation
    (parseJson : Str → Option PyDict)
    (model : DiagState → List (Str × Str) → Str)
    (store : List (Str × DiagState)) (session_id : Str)
    (answers : List (Str × Str)) :
    Except Str DiagState × List (Str × DiagState) :=
  match storeLookup session_id store with
  | none => (Except.error (S "Session not found"), store)
  | some st =>
    let hist := st.conversation_history ++ expandAnswers answers
    let stMut : DiagState := { st with conversation_history := hist }
    let store1 := storeSet session_id stMut store
    match twoTierParse parseJson (model stMut answers) with
    | some payload =>
      let stNew : DiagState :=
        { payload := payload, conversation_history := hist, iteration := st.iteration + 1 }
      (Except.ok stNew, storeSet session_id stNew store1)
    | none => (Except.ok stMut, store1)

/-- Whitespace skipping for the JSON reader below. -/
def skipWS (s : Str) : Str := s.dropWhile isWS

/-- Read a JSON string literal without escape sequences; returns the
content and the rest. -/
def jsonStringLit : Str → Option (Str × Str)
  | '"' :: rest =>
    let content := rest.takeWhile (fun c => c ≠ '"' ∧ c ≠ '\\')
    (match rest.drop content.length with
     | '"' :: tail => some (content, tail)
     | _ => none)
  | _ => none

/-- Read a decimal integer literal; returns the value and the rest. -/
def jsonIntLit (s : Str) : Option (Int × Str) :=
  let (neg, t) : Bool × Str := match s with
    | '-' :: r => (true, r)
    | r => (false, r)
  let digits := t.takeWhile Char.isDigit
  if digits = [] then none
  else
    let n : Nat := digits.foldl (fun a c => a * 10 + (c.toNat - 48)) 0
    some (if neg then -(n : Int) else (n : Int), t.drop digits.length)

/-- Read one JSON scalar value (string, integer or null). -/
def jsonScalar (s : Str) : Option (PyVal × Str) :=
  match jsonStringLit s with
  | some (c, r) => some (.pstr c, r)
  | none =>
    if S "null" <+: s then some (.pnone, s.drop 4)
    else (jsonIntLit s).map fun nr => (.pint nr.1, nr.2)

/-- Read the `"key": value` pairs of a flat JSON object, fuel-bounded. -/
def jsonPairs : Nat → Str → Option (PyDict × Str)
  | 0, _ => none
  | fuel + 1, s =>
    match jsonStringLit (skipWS s) with
    | none => none
    | some (k, r1) =>
      match skipWS r1 with
      | ':' :: r2 =>
        match jsonScalar (skipWS r2) with
        | none => none
        | some (v, r3) =>
          (match skipWS r3 with
           | ',' :: r4 => (jsonPairs fuel r4).map fun dr => ((k, v) :: dr.1, dr.2)
           | '\x7d' :: r4 => some ([(k, v)], r4)
           | _ => none)
      | _ => none

/-- Source `json.loads` restricted to flat objects of string, integer and null
values (enough to recognise the concrete model responses used in the
closed instances below; any other input is a parse failure, as
`json.loads` fails on the non-JSON strings involved). -/
def jsonParseFlat (s : Str) : Option PyDict :=
  match skipWS s with
  | '\x7b' :: r =>
    (match skipWS r with
     | '\x7d' :: tail => if skipWS tail = [] then some [] else none
     | _ => (jsonPairs (s.length + 1) r).bind fun dr =>
         if skipWS dr.2 = [] then some dr.1 else none)
  | _ => none

/-! ## utils/self_healing.py -/

/-- Source `MedicalAuditor.overconfident_phrases`. -/
def AUDIT_OVERCONFIDENT : List Str :=
  [ S "definitely", S "100%", S "guaranteed", S "certainly", S "absolutely",
    S "without doubt", S "for sure", S "no question", S "undoubtedly" ]

/-- Decimal rendering of a rational (Python float/int rendering inside
f-strings and `repr`, approximated: integers render exactly; a proper
fraction renders as numerator slash denominator.  The rendering consists
of digits, minus and slash only, so it can never complete an alphabetic
or percent trigger phrase). -/
def qRender (q : ℚ) : Str :=
  if q.den = 1 then S (toString q.num)
  else S (toString q.num) ++ '/' :: S (toString q.den)

mutual

/-- Python `repr` of a value (str values quoted; no escape handling, as
the embedded payloads contain none). -/
def pyRepr : PyVal → Str
  | .pnone => S "None"
  | .pstr s => '\x27' :: (s ++ ['\x27'])
  | .pint n => S (toString n)
  | .prat q => qRender q
  | .plist l => '[' :: (pyReprElems l ++ [']'])
  | .pdict d => '\x7b' :: (pyReprPairs d ++ ['\x7d'])

/-- Comma-separated `repr` of list elements. -/
def pyReprElems : List PyVal → Str
  | [] => []
  | [v] => pyRepr v
  | v :: w :: rest => pyRepr v ++ S ", " ++ pyReprElems (w :: rest)

/-- Comma-separated `repr` of dict entries. -/
def pyReprPairs : List (Str × PyVal) → Str
  | [] => []
  | [e] => '\x27' :: (e.1 ++ ['\x27']) ++ S ": " ++ pyRepr e.2
  | e :: f :: rest =>
    '\x27' :: (e.1 ++ ['\x27']) ++ S ": " ++ pyRepr e.2 ++ S ", " ++ pyReprPairs (f :: rest)

end

/-- Python `str` of a value (identity on strings, `repr` otherwise). -/
def pyStr : PyVal → Str
  | .pstr s => s
  | v => pyRepr v

/-- Dict lookup `data.get(k)` / `data[k]`. -/
def dlook (k : Str) : PyDict → Option PyVal
  | [] => none
  | e :: rest => if k = e.1 then some e.2 else dlook k rest

/-- Source `k in data`. -/
def hasKeyB (k : Str) (d : PyDict) : Bool := (dlook k d).isSome

/-- Dict assignment `data[k] = v` (update in place, else append). -/
def dset (k : Str) (v : PyVal) : PyDict → PyDict
  | [] => [(k, v)]
  | e :: rest => if k = e.1 then (k, v) :: rest else e :: dset k v rest

/-- Python `len` (`None` for values where `len` raises `TypeError`). -/
def pyLen : PyVal → Option Nat
  | .pstr s => some s.length
  | .plist l => some l.length
  | .pdict d => some d.length
  | _ => none

/-- Numeric view of a value (`isinstance(v, (int, float))`). -/
def asNum : PyVal → Option ℚ
  | .pint n => some (n : ℚ)
  | .prat q => some q
  | _ => none

/-- Source `v in [None, "", "Not available", []]` (completeness exclusion list
for bill and generic data). -/
def isExcludedVal : PyVal → Bool
  | .pnone => true
  | .pstr s => decide (s = []) || decide (s = S "Not available")
  | .plist l => l.isEmpty
  | _ => false

/-- Source `v in [None, "", "Not available"]` (policy-data exclusion list). -/
def isExcludedNoList : PyVal → Bool
  | .pnone => true
  | .pstr s => decide (s = []) || decide (s = S "Not available")
  | _ => false

/-- Source `_validate_structure`: structural issues for a dict payload (`none`
when Python would raise, i.e. `len` on a non-sized `items` value). -/
def validate_structure (d : PyDict) : Option (List Str) :=
  let missingIssues :=
    if hasKeyB (S "items") d then
      ([S "items", S "total"]).filterMap fun f =>
        match dlook f d with
        | none => some (S "Missing required field: " ++ f)
        | some .pnone => some (S "Missing required field: " ++ f)
        | some _ => none
    else []
  let listIssue :=
    match dlook (S "items") d with
    | some (.plist _) => []
    | some _ => [S "\x27items\x27 field is not a list"]
    | none => []
  match dlook (S "items") d with
  | none => some (missingIssues ++ listIssue)
  | some v =>
    (pyLen v).map fun n =>
      missingIssues ++ listIssue ++ (if n = 0 then [S "No items extracted"] else [])

/-- Source `sum(item.get("total_price", 0) for item in items)` (`none` when an
item is not a dict or a price is not numeric, where Python raises). -/
def sumTotalPrice (items : List PyVal) : Option ℚ :=
  items.foldl
    (fun acc it =>
      match acc, it with
      | none, _ => none
      | some a, .pdict idict =>
        (match dlook (S "total_price") idict with
         | none => some a
         | some v => (asNum v).map (a + ·))
      | some _, _ => none)
    (some 0)

/-- Source `_repair_structure`: coerce a non-list `items` to `[]`, then fill a
missing `total` with the item sum (both in-place dict mutations). -/
def repair_structure (d : PyDict) : Option PyDict :=
  let d1 :=
    match dlook (S "items") d with
    | some (.plist _) => d
    | some _ => dset (S "items") (.plist []) d
    | none => d
  if hasKeyB (S "items") d1 && !hasKeyB (S "total") d1 then
    match dlook (S "items") d1 with
    | some (.plist items) =>
      (sumTotalPrice items).map fun total =>
        dset (S "total") (if total.den = 1 then .pint total.num else .prat total) d1
    | _ => some d1
  else some d1

/-- Price issues of one bill item (`none` when the item is not a dict;
non-numeric prices are skipped by the `isinstance` guard). -/
def itemPriceIssues : PyVal → Option (List Str)
  | .pdict idict =>
    let price := (dlook (S "total_price") idict).getD (.pint 0)
    (match asNum price with
     | some q =>
       some ((if 1000000 < q then [S "Unrealistic price detected: ₹" ++ pyStr price] else [])
         ++ (if q < 0 then [S "Negative price detected: ₹" ++ pyStr price] else []))
     | none => some [])
  | _ => none

/-- Source `_detect_hallucination`: overconfidence scan of the stringified
payload, per-item price checks, and the total/items-sum 20% tolerance
check (`none` where Python raises on malformed items or totals). -/
def detect_hallucination (d : PyDict) : Option (List Str) :=
  let dataStr := lowerStr (pyRepr (.pdict d))
  let overconfIssues := AUDIT_OVERCONFIDENT.filterMap fun p =>
    if isSub p dataStr then
      some (S "Overconfident language detected: \x27" ++ p ++ S "\x27")
    else none
  let itemsOpt : Option (List PyVal) :=
    match dlook (S "items") d with
    | none => some []
    | some (.plist l) => some l
    | some _ => none
  itemsOpt.bind fun items =>
  (items.foldl (fun acc it => acc.bind fun l => (itemPriceIssues it).map (l ++ ·)) (some []))
    |>.bind fun priceIssues =>
  let mismatchOpt : Option (List Str) :=
    if hasKeyB (S "items") d && hasKeyB (S "total") d then
      (sumTotalPrice items).bind fun itemsTotal =>
      (asNum ((dlook (S "total") d).getD (.pint 0))).map fun declared =>
        if |itemsTotal - declared| > declared * (1/5 : ℚ) then
          [S "Total mismatch: items sum to ₹" ++ qRender itemsTotal
            ++ S " but total is ₹" ++ qRender declared]
        else []
    else some []
  mismatchOpt.map fun mismatchIssues =>
    overconfIssues ++ priceIssues ++ mismatchIssues

/-- One pass of Python `str.replace(pat, rep)` (all non-overlapping
occurrences, left to right), fuel-bounded by the input length. -/
def replaceAllFuel (pat rep : Str) : Nat → Str → Str
  | 0, s => s
  | _ + 1, [] => []
  | fuel + 1, c :: rest =>
    if pat <+: (c :: rest) then rep ++ replaceAllFuel pat rep fuel ((c :: rest).drop pat.length)
    else c :: replaceAllFuel pat rep fuel rest

/-- Python `s.replace(pat, rep)` for a non-empty pattern. -/
def replaceAll (pat rep s : Str) : Str := replaceAllFuel pat rep s.length s

/-- Python `str.capitalize` (first character upper-cased, rest lowered). -/
def capitalizeStr : Str → Str
  | [] => []
  | c :: rest => c.toUpper :: lowerStr rest

/-- Source `_repair_hallucination`: replace overconfidence words (and their
capitalised forms) with "likely"/"Likely" in every top-level string
field, in place. -/
def repair_hallucination (d : PyDict) : PyDict :=
  d.map fun e =>
    match e.2 with
    | .pstr s =>
      (e.1, .pstr (AUDIT_OVERCONFIDENT.foldl
        (fun acc p => replaceAll (capitalizeStr p) (S "Likely") (replaceAll p (S "likely") acc)) s))
    | _ => e

/-- Source `_check_completeness`: completeness fraction and missing fields, by
payload shape. -/
def check_completeness (d : PyDict) : ℚ × List Str :=
  if hasKeyB (S "items") d then
    let expected := [S "hospital_name", S "bill_number", S "bill_date", S "items", S "total"]
    let present := expected.filter fun f =>
      match dlook f d with
      | some v => !isExcludedVal v
      | none => false
    let missing := expected.filter fun f =>
      match dlook f d with
      | some v => isExcludedVal v
      | none => true
    ((present.length : ℚ) / (expected.length : ℚ), missing)
  else if hasKeyB (S "policy_number") d then
    let expected := [S "policy_number", S "insurance_company", S "sum_insured"]
    let present := expected.filter fun f =>
      match dlook f d with
      | some v => !isExcludedNoList v
      | none => false
    let missing := expected.filter fun f =>
      match dlook f d with
      | some v => isExcludedNoList v
      | none => true
    ((present.length : ℚ) / (expected.length : ℚ), missing)
  else
    let total := d.length
    let present := (d.filter fun e => !isExcludedVal e.2).length
    (if total = 0 then 0 else (present : ℚ) / (total : ℚ), [])

/-- Python `repr` of a list of strings (for the f-string interpolation
of `missing_fields`). -/
def reprStrList (l : List Str) : Str :=
  '[' :: (pyReprElems (l.map PyVal.pstr) ++ [']'])

/-- Prefix match of a date string against one of the three accepted
patterns (as `re.match` anchors at the start only). -/
def matchesDatePrefix (s : Str) : Bool :=
  match s with
  | a :: b :: c1 :: c2 :: e :: s1 :: f :: g :: h :: i :: _ =>
    (a.isDigit && b.isDigit && c1 = '/' && c2.isDigit && e.isDigit && s1 = '/'
      && f.isDigit && g.isDigit && h.isDigit && i.isDigit)
    || (a.isDigit && b.isDigit && c1.isDigit && c2.isDigit && e = '-' && s1.isDigit
      && f.isDigit && g = '-' && h.isDigit && i.isDigit)
    || (a.isDigit && b.isDigit && c1 = '-' && c2.isDigit && e.isDigit && s1 = '-'
      && f.isDigit && g.isDigit && h.isDigit && i.isDigit)
  | _ => false

/-- Consistency issues of one enumerated bill item (`none` where Python
raises on non-dict items or non-numeric fields). -/
def itemConsistencyIssues (idx : Nat) : PyVal → Option (List Str)
  | .pdict idict =>
    let qv := (dlook (S "quantity") idict).getD (.pint 1)
    let uv := (dlook (S "unit_price") idict).getD (.pint 0)
    let tv := (dlook (S "total_price") idict).getD (.pint 0)
    (asNum qv).bind fun q => (asNum uv).bind fun u => (asNum tv).map fun t =>
      if |t - q * u| > 1 then
        [S "Item " ++ S (toString idx) ++ S ": Price inconsistency (qty=" ++ pyStr qv
          ++ S ", unit=" ++ pyStr uv ++ S ", total=" ++ pyStr tv ++ S ")"]
      else []
  | _ => none

/-- Source `_check_consistency`: date-format check plus per-item price
consistency (`none` where Python raises). -/
def check_consistency (d : PyDict) : Option (List Str) :=
  let dateIssues :=
    if hasKeyB (S "bill_date") d then
      let dateStr := pyStr ((dlook (S "bill_date") d).getD (.pstr []))
      if dateStr ≠ [] ∧ dateStr ≠ S "Not available" then
        if matchesDatePrefix dateStr then [] else [S "Invalid date format: " ++ dateStr]
      else []
    else []
  let itemsOpt : Option (List PyVal) :=
    match dlook (S "items") d with
    | none => some []
    | some (.plist l) => some l
    | some _ => none
  itemsOpt.bind fun items =>
  ((items.enum.foldl
      (fun acc p => acc.bind fun l => (itemConsistencyIssues p.1 p.2).map (l ++ ·))
      (some [])).map
    fun itemIssues => dateIssues ++ itemIssues)

/-- Round half to even at the integer (Python `round` on rationals). -/
def roundHalfEven (y : ℚ) : Int :=
  let f := ⌊y⌋
  let r := y - (f : ℚ)
  if r < 1/2 then f
  else if 1/2 < r then f + 1
  else if f % 2 = 0 then f else f + 1

/-- Python `round(x, 2)`. -/
def round2 (q : ℚ) : ℚ := (roundHalfEven (q * 100) : ℚ) / 100

/-- Disclaimer text of the low-confidence tier. -/
def LOW_DISCLAIMER : Str :=
  S "⚠️ Low confidence analysis. Please verify all information with a healthcare professional."

/-- Disclaimer text of the medium-confidence tier. -/
def MED_DISCLAIMER : Str :=
  S "⚠️ This is AI-assisted analysis. Please confirm important details with your doctor."

/-- Disclaimer text of the high-confidence tier. -/
def HIGH_DISCLAIMER : Str :=
  S "ℹ️ This is AI-assisted analysis. Always consult healthcare professionals for medical decisions."

/-- Source `_add_disclaimers`: write disclaimer, confidence level and rounded
confidence score into the payload (in-place dict mutations, in this
order). -/
def add_disclaimers (d : PyDict) (conf : ℚ) : PyDict :=
  let tier : Str × Str :=
    if conf < 1/2 then (LOW_DISCLAIMER, S "low")
    else if conf < 7/10 then (MED_DISCLAIMER, S "medium")
    else (HIGH_DISCLAIMER, S "high")
  dset (S "confidence_score") (.prat (round2 conf))
    (dset (S "confidence_level") (.pstr tier.2)
      (dset (S "disclaimer") (.pstr tier.1) d))

/-- The running outcome of `audit_extraction`, with a ghost per-stage
confidence trace: for each of the five stages, whether the stage
recorded an issue, and the confidence before and after it. -/
structure AuditCore where
  finalData : PyDict
  validation_passed : Bool
  issues : List Str
  corrections : List Str
  conf : ℚ
  trace : List (Bool × ℚ × ℚ)

/-- The five audit stages in order, threading the (in-place mutated)
payload, the issue list, the corrections and the confidence exactly as
`audit_extraction` does.  `none` models an uncaught Python exception on
a malformed payload. -/
def audit_core (d : PyDict) : Option AuditCore :=
  (validate_structure d).bind fun structIssues =>
  let structValid := structIssues.isEmpty
  (if structValid then some (d, true, ([] : List Str), ([] : List Str), (1 : ℚ))
   else (repair_structure d).map fun d' =>
     (d', false, structIssues, [S "structural_repair"], (1/2 : ℚ)))
  |>.bind fun s1 =>
  match s1 with
  | (d1, vp1, iss1, corr1, conf1) =>
    (detect_hallucination d1).bind fun hallucIssues =>
    let hallucDetected := !hallucIssues.isEmpty
    let d2 := if hallucDetected then repair_hallucination d1 else d1
    let vp2 := if hallucDetected then false else vp1
    let iss2 := if hallucDetected then iss1 ++ hallucIssues else iss1
    let corr2 := if hallucDetected then corr1 ++ [S "hallucination_repair"] else corr1
    let conf2 := if hallucDetected then conf1 * (7/10 : ℚ) else conf1
    let comp := check_completeness d2
    let compLow : Bool := decide (comp.1 < (7/10 : ℚ))
    let iss3 := if compLow then iss2 ++ [S "Incomplete data: " ++ reprStrList comp.2] else iss2
    let conf3 := if compLow then conf2 * comp.1 else conf2
    (check_consistency d2).map fun consIssues =>
    let consBad := !consIssues.isEmpty
    let iss4 := if consBad then iss3 ++ consIssues else iss3
    let conf4 := if consBad then conf3 * (4/5 : ℚ) else conf3
    let d3 := add_disclaimers d2 conf4
    { finalData := d3, validation_passed := vp2, issues := iss4,
      corrections := corr2, conf := conf4,
      trace := [ (!structValid, 1, conf1),
                 (hallucDetected, conf1, conf2),
                 (compLow, conf2, conf3),
                 (consBad, conf3, conf4),
                 (false, conf4, conf4) ] }

/-- The audit result dict assembled by `audit_extraction`.  In the
source, `original_data` is assigned the input dict object *before* the
repair stages, but every repair and the stage-5 disclaimer writes mutate
that same object in place, so at return time `original_data` and
`validated_data` are the same dict holding the final content; the
embedding therefore assigns the final payload to both fields. -/
structure AuditRes where
  original_data : PyDict
  validation_passed : Bool
  issues_found : List Str
  corrections_applied : List Str
  confidence_score : ℚ
  validated_data : PyDict
  status : Str

/-- Source `audit_extraction` (the `confidence_score` of the audit-result dict
is the unrounded running value; the rounded copy lives inside the
payload). -/
def audit_extraction (d : PyDict) : Option AuditRes :=
  (audit_core d).map fun c =>
    { original_data := c.finalData,
      validation_passed := c.validation_passed,
      issues_found := c.issues,
      corrections_applied := c.corrections,
      confidence_score := c.conf,
      validated_data := c.finalData,
      status := if c.validation_passed then S "valid" else S "partial" }

/-- The per-stage confidence trace of one audit run. -/
def auditConfTrace (d : PyDict) : Option (List (Bool × ℚ × ℚ)) :=
  (audit_core d).map AuditCore.trace

/-! ## Concrete instances used by the closed theorems below -/

/-- Every trigger phrase of `validate_response` (overconfidence,
dangerous claims, dosage patterns). -/
def ALL_TRIGGERS : List Str :=
  OVERCONFIDENT_PHRASES ++ DANGEROUS_MEDICAL_CLAIMS.map Prod.fst ++ DOSAGE_PATTERNS

/-- The block appended when only the uncertainty reminder fires:
the separator of `validate_response` followed by the reminder. -/
def SEPW : Str := S "\n\n" ++ UNCERTAINTY_WARNING

/-- A concrete instantiation of the workflow collaborators. -/
def oracleA : Oracles :=
  { sanitize := id,
    to_english := fun s _ => s,
    to_local := fun s _ => s,
    riskModel := fun _ _ => S "high sugar risk",
    eyeModel := fun _ => S "eye finding text",
    footModel := fun _ => S "foot finding text",
    dietModel := fun _ => S "eat ragi and greens",
    amie_start := fun _ _ => { session_id := some (S "sess1"), urgency := some (S "LOW") },
    amie_summary := fun _ _ => S "diagnostic summary text" }

/-- Source `oracleA` with a risk model that answers overconfidently. -/
def oracleC3 : Oracles :=
  { oracleA with riskModel := fun _ _ => S "100% sure it is high risk" }

/-- A plain diet-check request state. -/
def initDemo : GState :=
  initialGState (S "feeling thirsty often") (S "en") 40 none (S "diet") false none none

/-- A diet-check request state in diagnostic mode. -/
def initDiag : GState :=
  initialGState (S "feeling dizzy") (S "en") 40 none (S "diet") true none none

/-- A stored diagnostic session. -/
def C2state : DiagState :=
  { payload := [], conversation_history := [], iteration := 1 }

/-- A session store holding one session. -/
def C2store : List (Str × DiagState) := [(S "s1", C2state)]

/-- A gateway whose continuation response is not JSON. -/
def C2model : DiagState → List (Str × Str) → Str :=
  fun _ _ => S "I cannot produce structured output."

/-- One answered question. -/
def C2answers : List (Str × Str) := [(S "Any fever?", S "yes")]

/-- A payload whose completeness score is zero while the consistency
stage still records an issue. -/
def C6cex : PyDict := [(S "bill_date", PyVal.pnone)]

/-- Placeholder audit result (for `Option.getD`). -/
def dummyAuditRes : AuditRes :=
  { original_data := [], validation_passed := true, issues_found := [],
    corrections_applied := [], confidence_score := 0, validated_data := [],
    status := [] }

/-- The audit result of the empty payload. -/
def auditEmptyRes : AuditRes := (audit_extraction []).getD dummyAuditRes

/-- The confidence trace of the empty payload. -/
def auditEmptyTrace : List (Bool × ℚ × ℚ) := (auditConfTrace []).getD []

/-! ## Helper lemmas -/

set_option maxRecDepth 4000

theorem isSub_false_iff {p s : Str} : isSub p s = false ↔ ¬ p <:+: s := by
  simp [isSub]

theorem isSub_true_iff {p s : Str} : isSub p s = true ↔ p <:+: s := by
  simp [isSub]

/-- A phrase avoiding a separator character and occurring as a prefix of
`a ++ c :: c :: b` is a prefix of `a`. -/
theorem prefix_into_sep {b : Str} {c : Char} :
    ∀ (a p : Str), p <+: a ++ c :: c :: b → c ∉ p → p <+: a := by
  intro a
  induction a with
  | nil =>
    intro p hp hc
    cases p with
    | nil => exact List.nil_prefix
    | cons x p' =>
      exfalso
      obtain ⟨t, ht⟩ := hp
      simp only [List.nil_append, List.cons_append, List.cons.injEq] at ht
      exact hc (ht.1 ▸ List.mem_cons_self x p')
  | cons y a' ih =>
    intro p hp hc
    cases p with
    | nil => exact List.nil_prefix
    | cons x p' =>
      obtain ⟨t, ht⟩ := hp
      simp only [List.cons_append, List.cons.injEq, List.append_assoc] at ht
      obtain ⟨hxy, hrest⟩ := ht
      obtain ⟨u, hu⟩ :=
        ih p' ⟨t, by simpa [List.append_assoc] using hrest⟩
          (fun hm => hc (List.mem_cons_of_mem _ hm))
      exact ⟨u, by simp [hxy, ← hu]⟩

/-- A phrase avoiding a separator character that occurs inside
`a ++ c :: c :: b` occurs inside `a` or inside `b`. -/
theorem infix_split_sep {b : Str} {c : Char} :
    ∀ (s a p t : Str), s ++ p ++ t = a ++ c :: c :: b → c ∉ p →
      p <:+: a ∨ p <:+: b := by
  intro s
  induction s with
  | nil =>
    intro a p t h hc
    left
    have hp : p <+: a ++ c :: c :: b := ⟨t, by simpa using h⟩
    exact (prefix_into_sep a p hp hc).isInfix
  | cons x s' ih =>
    intro a p t h hc
    cases a with
    | nil =>
      simp only [List.cons_append, List.nil_append, List.cons.injEq,
        List.append_assoc] at h
      obtain ⟨hxc, hrest⟩ := h
      right
      cases s' with
      | nil =>
        simp only [List.nil_append] at hrest
        cases p with
        | nil => exact ⟨[], b, by simp⟩
        | cons z p' =>
          exfalso
          simp only [List.cons_append, List.cons.injEq] at hrest
          exact hc (hrest.1 ▸ List.mem_cons_self z p')
      | cons w s'' =>
        simp only [List.cons_append, List.cons.injEq] at hrest
        exact ⟨s'', t, by simpa [List.append_assoc] using hrest.2⟩
    | cons y a' =>
      simp only [List.cons_append, List.cons.injEq, List.append_assoc] at h
      rcases ih a' p t (by simpa [List.append_assoc] using h.2) hc with hl | hr
      · left
        obtain ⟨u, v, huv⟩ := hl
        exact ⟨y :: u, v, by simp [← huv]⟩
      · right; exact hr

/-- Non-containment transfers across a double-separator append. -/
theorem not_infix_append_sep {a b p : Str} {c : Char} (hc : c ∉ p)
    (ha : ¬ p <:+: a) (hb : ¬ p <:+: b) : ¬ p <:+: a ++ c :: c :: b := by
  intro h
  obtain ⟨s, t, hst⟩ := h
  rcases infix_split_sep s a p t hst hc with h1 | h2
  exacts [ha h1, hb h2]

/-- Trailing strip is the identity when the text ends in a
non-whitespace suffix. -/
theorem dropTrailing_append_clean {a b : Str} (hne : b ≠ [])
    (hb : b.reverse.dropWhile isWS = b.reverse) :
    dropTrailing (a ++ b) = a ++ b := by
  have hemp : (b.reverse.dropWhile isWS).isEmpty = false := by
    rw [hb]
    simpa [List.isEmpty_iff] using hne
  have hemp' : (b.reverse).isEmpty = false := by
    simpa [List.isEmpty_iff] using hne
  simp [dropTrailing, List.reverse_append, List.dropWhile_append, hb, hemp']

/-- Leading strip distributes over an append whose left part survives. -/
theorem dropLeading_append_of_ne {a b : Str} (ha : dropLeading a ≠ []) :
    dropLeading (a ++ b) = dropLeading a ++ b := by
  have : (a.dropWhile isWS).isEmpty = false := by
    simpa [List.isEmpty_iff, dropLeading] using ha
  simp [dropLeading, List.dropWhile_append, this]

/-- Strip of text extended by the separator-plus-reminder block. -/
theorem stripStr_append_sepw (x : Str) (hx : dropLeading x ≠ []) :
    stripStr (x ++ SEPW) = dropLeading x ++ SEPW := by
  rw [stripStr, dropLeading_append_of_ne hx]
  exact dropTrailing_append_clean (by decide) (by decide)

/-- Overconfidence phrases are trigger phrases. -/
theorem mem_all_of_overconf {p : Str} (hp : p ∈ OVERCONFIDENT_PHRASES) :
    p ∈ ALL_TRIGGERS := by
  rw [ALL_TRIGGERS]
  exact List.mem_append_left _ (List.mem_append_left _ hp)

/-- Dangerous-claim phrases are trigger phrases. -/
theorem mem_all_of_claim {cr : Str × Str} (hp : cr ∈ DANGEROUS_MEDICAL_CLAIMS) :
    cr.1 ∈ ALL_TRIGGERS := by
  rw [ALL_TRIGGERS]
  exact List.mem_append_left _ (List.mem_append_right _ (List.mem_map_of_mem _ hp))

/-- Dosage phrases are trigger phrases. -/
theorem mem_all_of_dosage {p : Str} (hp : p ∈ DOSAGE_PATTERNS) :
    p ∈ ALL_TRIGGERS := by
  rw [ALL_TRIGGERS]
  exact List.mem_append_right _ hp

/-- Appending the uncertainty reminder to trigger-free text of valid
length yields a fixed point of `validate_response`. -/
theorem validate_of_clean_long (x t : Str)
    (hx : ¬ (x = [] ∨ (stripStr x).length < 10))
    (h : ∀ p ∈ ALL_TRIGGERS, ¬ p <:+: lowerStr x) :
    validate_response (x ++ SEPW) t = x ++ SEPW := by
  push_neg at hx
  obtain ⟨hxe, hlen⟩ := hx
  have hdl : dropLeading x ≠ [] := by
    intro he
    rw [stripStr, he] at hlen
    simp [dropTrailing] at hlen
  have hstrip := stripStr_append_sepw x hdl
  have hc1 : ¬ (x ++ SEPW = [] ∨ (stripStr (x ++ SEPW)).length < 10) := by
    push_neg
    constructor
    · intro he
      exact absurd (List.append_eq_nil.mp he).2 (by decide)
    · rw [hstrip, List.length_append]
      have hsep : 10 ≤ SEPW.length := by decide
      omega
  have hlow : lowerStr (x ++ SEPW)
      = lowerStr x ++ '\n' :: '\n' :: lowerStr UNCERTAINTY_WARNING := by
    rw [lowerStr, List.map_append]
    congr 1
  have hub : ∀ p ∈ ALL_TRIGGERS, '\n' ∉ p ∧ ¬ p <:+: lowerStr UNCERTAINTY_WARNING := by
    decide
  have hext : ∀ p ∈ ALL_TRIGGERS, ¬ p <:+: lowerStr (x ++ SEPW) := by
    intro p hp
    rw [hlow]
    exact not_infix_append_sep (hub p hp).1 (h p hp) (hub p hp).2
  have hch : check_hallucination_risk (x ++ SEPW) = false := by
    rw [check_hallucination_risk, List.any_eq_false]
    intro p hp
    simp [isSub_false_iff.mpr (hext _ (mem_all_of_overconf hp))]
  have hdw : dangerousWarnings (lowerStr (x ++ SEPW)) = [] := by
    rw [dangerousWarnings, List.filterMap_eq_nil_iff]
    intro cr hcr
    simp [isSub_false_iff.mpr (hext _ (mem_all_of_claim hcr))]
  have hdos : dosageWarnings (lowerStr (x ++ SEPW)) = [] := by
    rw [dosageWarnings, if_neg]
    rw [Bool.not_eq_true, List.any_eq_false]
    intro p hp
    simp [isSub_false_iff.mpr (hext _ (mem_all_of_dosage hp))]
  have hdoc : (REQUIRED_UNCERTAINTY_PHRASES.any fun p => isSub p (lowerStr (x ++ SEPW))) = true := by
    rw [List.any_eq_true]
    refine ⟨S "doctor", by decide, ?_⟩
    rw [isSub_true_iff, hlow]
    have h1 : (S "doctor") <:+: lowerStr UNCERTAINTY_WARNING := by decide
    exact h1.trans ⟨lowerStr x ++ ['\n', '\n'], [], by simp⟩
  have hunc : uncertaintyWarnings t (x ++ SEPW) (lowerStr (x ++ SEPW)) = [] := by
    rw [uncertaintyWarnings, if_neg]
    simp [hdoc]
  rw [validate_response, if_neg hc1, if_neg (by simp [hch])]
  simp [hdw, hdos, hunc]

/-- C8: SafetyValidator.Validate is idempotent on text containing none
of the overconfidence, dangerous-claim, or dosage trigger phrases, for
every nodeName. -/
theorem C8_validate_idempotent (x t : Str)
    (h : ∀ p ∈ ALL_TRIGGERS, ¬ p <:+: lowerStr x) :
    validate_response (validate_response x t) t = validate_response x t := by
  by_cases h1 : x = [] ∨ (stripStr x).length < 10
  · have hx : validate_response x t = FALLBACK_SHORT := by
      rw [validate_response, if_pos h1]
    rw [hx]
    rw [validate_response, if_neg (by decide), if_neg (by decide)]
    have hu : uncertaintyWarnings t FALLBACK_SHORT (lowerStr FALLBACK_SHORT) = [] := by
      rw [uncertaintyWarnings, if_neg]
      have hl : decide (100 < FALLBACK_SHORT.length) = false := by decide
      simp [hl]
    simp [hu, (by decide : dangerousWarnings (lowerStr FALLBACK_SHORT) = []),
      (by decide : dosageWarnings (lowerStr FALLBACK_SHORT) = [])]
  · have hch : check_hallucination_risk x = false := by
      rw [check_hallucination_risk, List.any_eq_false]
      intro p hp
      simp [isSub_false_iff.mpr (h _ (mem_all_of_overconf hp))]
    have hdw : dangerousWarnings (lowerStr x) = [] := by
      rw [dangerousWarnings, List.filterMap_eq_nil_iff]
      intro cr hcr
      simp [isSub_false_iff.mpr (h _ (mem_all_of_claim hcr))]
    have hdos : dosageWarnings (lowerStr x) = [] := by
      rw [dosageWarnings, if_neg]
      rw [Bool.not_eq_true, List.any_eq_false]
      intro p hp
      simp [isSub_false_iff.mpr (h _ (mem_all_of_dosage hp))]
    by_cases h2 : (decide (t ∈ CLINICAL_TOOLS) && decide (100 < x.length)
        && !(REQUIRED_UNCERTAINTY_PHRASES.any fun p => isSub p (lowerStr x))) = true
    · have hu : uncertaintyWarnings t x (lowerStr x) = [UNCERTAINTY_WARNING] := by
        rw [uncertaintyWarnings, if_pos h2]
      have hval : validate_response x t = x ++ SEPW := by
        rw [validate_response, if_neg h1, if_neg (by simp [hch])]
        simp only [hdw, hdos, hu, List.nil_append]
        rw [if_neg (by simp)]
        have hint : List.intercalate (S "\n") [UNCERTAINTY_WARNING] = UNCERTAINTY_WARNING := by
          decide
        rw [hint, SEPW, List.append_assoc]
      rw [hval, validate_of_clean_long x t h1 h]
    · have hu : uncertaintyWarnings t x (lowerStr x) = [] := by
        rw [uncertaintyWarnings, if_neg h2]
      have hval : validate_response x t = x := by
        rw [validate_response, if_neg h1, if_neg (by simp [hch])]
        simp [hdw, hdos, hu]
      rw [hval, hval]

/-- C8 witness: idempotence at a concrete trigger-free text. -/
theorem C8_witness :
    (∀ p ∈ ALL_TRIGGERS, ¬ p <:+: lowerStr (S "patient reports mild thirst")) ∧
    validate_response (validate_response (S "patient reports mild thirst") (S "x")) (S "x")
      = validate_response (S "patient reports mild thirst") (S "x") :=
  ⟨by decide, C8_validate_idempotent (S "patient reports mild thirst") (S "x") (by decide)⟩

/-- C5 counterexample: the input consisting of exactly "100% sure" (9
characters) is caught by the short-text branch and yields the
short-text fallback, not the safe-redirect string the claim promises. -/
theorem C5_counterexample :
    validate_response (S "100% sure") (S "node_risk_screen") = FALLBACK_SHORT ∧
    FALLBACK_SHORT ≠ SAFE_REDIRECT := by
  constructor
  · rw [validate_response, if_pos]
    right
    decide
  · decide

/-- C5 (amended): for every input whose stripped length is at least 10
and which contains "100% sure" (case-insensitively), Validate returns
exactly the fixed safe-redirect string, for every nodeName.  (Shorter
inputs fall into the short-text branch first.) -/
theorem C5_overconfidence_total (text tool_name : Str)
    (hlen : 10 ≤ (stripStr text).length)
    (hsub : isSub (S "100% sure") (lowerStr text) = true) :
    validate_response text tool_name = SAFE_REDIRECT := by
  have h1 : ¬ (text = [] ∨ (stripStr text).length < 10) := by
    rintro (he | hl)
    · rw [he] at hlen
      exact absurd hlen (by decide)
    · omega
  rw [validate_response, if_neg h1, if_pos]
  rw [check_hallucination_risk, List.any_eq_true]
  exact ⟨S "100% sure", by decide, hsub⟩

/-- C5 witness: the amended theorem at a concrete overconfident text. -/
theorem C5_witness :
    10 ≤ (stripStr (S "We are 100% sure of it")).length ∧
    validate_response (S "We are 100% sure of it") (S "anything") = SAFE_REDIRECT :=
  ⟨by decide, C5_overconfidence_total (S "We are 100% sure of it") (S "anything")
    (by decide) (by decide)⟩

/-- C3 counterexample: when the raw model text is overconfident and
mentions "high", the validator replaces it entirely, and the severity
the node derives from the replaced text is GREEN — not the RED a scan
of the raw pre-validation text would give. -/
theorem C3_counterexample :
    (node_risk_screen oracleC3 initDemo).severity = S "GREEN" ∧
    specRiskSeverityFromRaw (S "100% sure it is high risk") = S "RED" ∧
    (S "GREEN" : Str) ≠ S "RED" := by
  refine ⟨by decide, by decide, by decide⟩

/-- C3 (amended): in node_risk_screen, severity is derived from the
validated (post-validation) model text by keyword scan — i.e. severity
always equals the scan of the risk_result the node actually stores. -/
theorem C3_severity_from_validated (o : Oracles) (st : GState) :
    (node_risk_screen o st).severity
      = riskKeywordSeverity (node_risk_screen o st).risk_result := rfl

/-- C9: eye_check and foot_check call the image model exactly when the
image bytes are (truthily) present and the check type is in
{retinopathy, full} (eye) or {foot, full} (foot); in every other case
no model call is made and the fixed photo-not-provided guidance is
returned. -/
theorem C9_image_gating (o : Oracles) (img : Option (List Nat)) (ct : Str) :
    ((node_eye_check_core o img ct).2 = true ↔
      truthyBytes img = true ∧ (ct = S "retinopathy" ∨ ct = S "full")) ∧
    (¬ (truthyBytes img = true ∧ (ct = S "retinopathy" ∨ ct = S "full")) →
      node_eye_check_core o img ct = (EYE_NO_PHOTO, false)) ∧
    ((node_foot_check_core o img ct).2 = true ↔
      truthyBytes img = true ∧ (ct = S "foot" ∨ ct = S "full")) ∧
    (¬ (truthyBytes img = true ∧ (ct = S "foot" ∨ ct = S "full")) →
      node_foot_check_core o img ct = (FOOT_NO_PHOTO, false)) := by
  refine ⟨?_, ?_, ?_, ?_⟩
  · rw [node_eye_check_core]
    split
    case isTrue hc =>
      simp only [Bool.and_eq_true, Bool.or_eq_true, decide_eq_true_iff] at hc
      simpa using hc
    case isFalse hc =>
      simp only [Bool.and_eq_true, Bool.or_eq_true, decide_eq_true_iff] at hc
      simpa using hc
  · intro hn
    rw [node_eye_check_core, if_neg]
    simp only [Bool.and_eq_true, Bool.or_eq_true, decide_eq_true_iff]
    exact hn
  · rw [node_foot_check_core]
    split
    case isTrue hc =>
      simp only [Bool.and_eq_true, Bool.or_eq_true, decide_eq_true_iff] at hc
      simpa using hc
    case isFalse hc =>
      simp only [Bool.and_eq_true, Bool.or_eq_true, decide_eq_true_iff] at hc
      simpa using hc
  · intro hn
    rw [node_foot_check_core, if_neg]
    simp only [Bool.and_eq_true, Bool.or_eq_true, decide_eq_true_iff]
    exact hn

/-- C9 witness: no image and check type "diet" make no model call and
return the fixed strings, for both nodes. -/
theorem C9_witness :
    node_eye_check_core oracleA none (S "diet") = (EYE_NO_PHOTO, false) ∧
    node_foot_check_core oracleA none (S "diet") = (FOOT_NO_PHOTO, false) :=
  ⟨(C9_image_gating oracleA none (S "diet")).2.1 (by decide),
   (C9_image_gating oracleA none (S "diet")).2.2.2 (by decide)⟩

/-- C7: Continue on an unknown session id returns the SessionNotFound
error value (never raises) and leaves the store unchanged. -/
theorem C7_unknown_session (parseJson : Str → Option PyDict)
    (model : DiagState → List (Str × Str) → Str)
    (store : List (Str × DiagState)) (sid : Str) (answers : List (Str × Str))
    (h : storeLookup sid store = none) :
    continue_diagnostic_conversation parseJson model store sid answers
      = (Except.error (S "Session not found"), store) := by
  rw [continue_diagnostic_conversation, h]

/-- C7 witness: the theorem at an empty store. -/
theorem C7_witness :
    continue_diagnostic_conversation jsonParseFlat C2model [] (S "nope") []
      = (Except.error (S "Session not found"), []) :=
  C7_unknown_session jsonParseFlat C2model [] (S "nope") [] rfl

/-- C2 counterexample: on a parse failure, the state Continue returns
has its conversation history extended by the submitted Q/A pair — it is
not the prior state unchanged. -/
theorem C2_counterexample :
    (continue_diagnostic_conversation jsonParseFlat C2model C2store (S "s1") C2answers).1
      = Except.ok ({ payload := [],
                     conversation_history := [(S "physician", S "Any fever?"), (S "patient", S "yes")],
                     iteration := 1 } : DiagState) ∧
    [(S "physician", S "Any fever?"), (S "patient", S "yes")]
      ≠ C2state.conversation_history := by
  exact ⟨rfl, by decide⟩

/-- C2 (amended): on a parse failure, Continue returns the prior state
with only conversationHistory extended by the submitted Q/A pairs
(appended before the model call); iteration and the payload are
unchanged, and the stored state equals the returned state. -/
theorem C2_parse_failure_state (parseJson : Str → Option PyDict)
    (model : DiagState → List (Str × Str) → Str)
    (store : List (Str × DiagState)) (sid : Str)
    (answers : List (Str × Str)) (st : DiagState)
    (hfound : storeLookup sid store = some st)
    (hparse : twoTierParse parseJson
        (model { st with conversation_history :=
                  st.conversation_history ++ expandAnswers answers } answers) = none) :
    continue_diagnostic_conversation parseJson model store sid answers
      = (Except.ok { st with conversation_history :=
            st.conversation_history ++ expandAnswers answers },
         storeSet sid { st with conversation_history :=
            st.conversation_history ++ expandAnswers answers } store) := by
  rw [continue_diagnostic_conversation, hfound]
  simp only [hparse]

/-- C2 witness: the amended theorem at a concrete store and non-JSON
model response. -/
theorem C2_witness :
    continue_diagnostic_conversation jsonParseFlat C2model C2store (S "s1") C2answers
      = (Except.ok { C2state with conversation_history :=
            C2state.conversation_history ++ expandAnswers C2answers },
         storeSet (S "s1") { C2state with conversation_history :=
            C2state.conversation_history ++ expandAnswers C2answers } C2store) :=
  C2_parse_failure_state jsonParseFlat C2model C2store (S "s1") C2answers C2state rfl rfl

/-- Dispatch equations of the node runner. -/
theorem runNode_risk (o : Oracles) (st : GState) :
    runNode o st (S "risk_screen") = node_risk_screen o st := rfl

/-- Dispatch equation: eye node. -/
theorem runNode_eye (o : Oracles) (st : GState) :
    runNode o st (S "eye_check") = node_eye_check o st := rfl

/-- Dispatch equation: foot node. -/
theorem runNode_foot (o : Oracles) (st : GState) :
    runNode o st (S "foot_check") = node_foot_check o st := rfl

/-- Dispatch equation: diet node. -/
theorem runNode_diet (o : Oracles) (st : GState) :
    runNode o st (S "diet_advice") = node_diet_advice o st := rfl

/-- Dispatch equation: amie node. -/
theorem runNode_amie (o : Oracles) (st : GState) :
    runNode o st (S "amie_diagnostic") = node_amie_diagnostic o st := rfl

/-- Dispatch equation: summarize node. -/
theorem runNode_summ (o : Oracles) (st : GState) :
    runNode o st (S "summarize") = node_summarize o st := rfl

/-- The amie node is the identity when diagnostic mode is off. -/
theorem amie_noop (o : Oracles) (st : GState) (h : st.diagnostic_mode = false) :
    node_amie_diagnostic o st = st := by
  rw [node_amie_diagnostic, h]
  simp

/-- The severity produced by the regular (non-diagnostic) aggregation
branch of summarize. -/
theorem summarize_sev_nondiag (o : Oracles) (st : GState)
    (h : st.diagnostic_mode = false) :
    (node_summarize o st).severity
      = (if OVERRIDE_KEYWORDS.any (fun w => isSub w (lowerStr (combinedEnglish st)))
         then S "RED" else st.severity) := by
  rw [node_summarize, h]
  simp

/-- C1 counterexample: the diet route also visits the amie_diagnostic
node (fixed edge diet_advice to amie_diagnostic to summarize), which is
not among the three nodes the claim lists. -/
theorem C1_counterexample :
    S "amie_diagnostic" ∈ visitedNodes (S "diet") ∧
    S "amie_diagnostic" ∉ [S "risk_screen", S "diet_advice", S "summarize"] := by
  decide

/-- C1 (amended): for checkType "diet" with no image and diagnostic
mode off, the workflow visits risk_screen, diet_advice, amie_diagnostic
(a no-op pass-through) and summarize, in that order, and the final
severity equals the severity produced by risk_screen unless the
combined pre-translation English text contains an override keyword, in
which case it is RED. -/
theorem C1_diet_route (o : Oracles) (q lang : Str) (age : Int) :
    visitedNodes (S "diet")
      = [S "risk_screen", S "diet_advice", S "amie_diagnostic", S "summarize"] ∧
    (runWorkflow o (initialGState q lang age none (S "diet") false none none)).severity
      = (if OVERRIDE_KEYWORDS.any (fun w => isSub w (lowerStr (combinedEnglish
            (node_diet_advice o (node_risk_screen o
              (initialGState q lang age none (S "diet") false none none))))))
         then S "RED"
         else (node_risk_screen o
            (initialGState q lang age none (S "diet") false none none)).severity) := by
  refine ⟨by decide, ?_⟩
  rw [runWorkflow]
  have hct : (initialGState q lang age none (S "diet") false none none).check_type
      = S "diet" := rfl
  rw [hct, (by decide : visitedNodes (S "diet")
      = [S "risk_screen", S "diet_advice", S "amie_diagnostic", S "summarize"])]
  simp only [List.foldl_cons, List.foldl_nil]
  rw [runNode_risk, runNode_diet, runNode_amie, runNode_summ]
  rw [amie_noop _ _ rfl]
  rw [summarize_sev_nondiag _ _ rfl]
  rfl

/-- The four possible node sequences of a run. -/
theorem visitedNodes_cases (ct : Str) :
    visitedNodes ct = [S "risk_screen", S "eye_check", S "foot_check",
        S "diet_advice", S "amie_diagnostic", S "summarize"]
  ∨ visitedNodes ct = [S "risk_screen", S "foot_check", S "diet_advice",
        S "amie_diagnostic", S "summarize"]
  ∨ visitedNodes ct = [S "risk_screen", S "diet_advice", S "amie_diagnostic",
        S "summarize"]
  ∨ visitedNodes ct = [S "risk_screen", S "summarize"] := by
  rw [visitedNodes, route_after_risk]
  split_ifs
  · left; rfl
  · right; left; rfl
  · right; right; left; rfl
  · right; right; right; rfl

/-- Eye node: severity and diagnostic mode untouched. -/
theorem node_eye_frame (o : Oracles) (st : GState) :
    (node_eye_check o st).severity = st.severity ∧
    (node_eye_check o st).diagnostic_mode = st.diagnostic_mode := ⟨rfl, rfl⟩

/-- Foot node: severity and diagnostic mode untouched. -/
theorem node_foot_frame (o : Oracles) (st : GState) :
    (node_foot_check o st).severity = st.severity ∧
    (node_foot_check o st).diagnostic_mode = st.diagnostic_mode := ⟨rfl, rfl⟩

/-- Diet node: severity and diagnostic mode untouched. -/
theorem node_diet_frame (o : Oracles) (st : GState) :
    (node_diet_advice o st).severity = st.severity ∧
    (node_diet_advice o st).diagnostic_mode = st.diagnostic_mode := ⟨rfl, rfl⟩

/-- Summarize keeps RED in the regular branch. -/
theorem summarize_keeps_red (o : Oracles) (st : GState)
    (hdm : st.diagnostic_mode = false) (hsev : st.severity = S "RED") :
    (node_summarize o st).severity = S "RED" := by
  rw [summarize_sev_nondiag o st hdm]
  split
  · rfl
  · exact hsev

/-- C4 (amended): in a non-diagnostic run, once risk_screen sets
severity RED the final severity of the run is RED (the summarize
keyword override may only escalate to RED); in diagnostic mode the
summarize node instead returns the AMIE urgency, which may differ. -/
theorem C4_red_monotone (o : Oracles) (init : GState)
    (hdm : init.diagnostic_mode = false)
    (hred : (node_risk_screen o init).severity = S "RED") :
    (runWorkflow o init).severity = S "RED" := by
  rw [runWorkflow]
  have hdm1 : (node_risk_screen o init).diagnostic_mode = false := hdm
  rcases visitedNodes_cases init.check_type with h | h | h | h <;> rw [h] <;>
    simp only [List.foldl_cons, List.foldl_nil] <;>
    rw [runNode_risk]
  · rw [runNode_eye, runNode_foot, runNode_diet, runNode_amie, runNode_summ]
    rw [amie_noop _ _ (by rw [(node_diet_frame _ _).2, (node_foot_frame _ _).2,
      (node_eye_frame _ _).2]; exact hdm1)]
    exact summarize_keeps_red _ _
      (by rw [(node_diet_frame _ _).2, (node_foot_frame _ _).2,
        (node_eye_frame _ _).2]; exact hdm1)
      (by rw [(node_diet_frame _ _).1, (node_foot_frame _ _).1,
        (node_eye_frame _ _).1]; exact hred)
  · rw [runNode_foot, runNode_diet, runNode_amie, runNode_summ]
    rw [amie_noop _ _ (by rw [(node_diet_frame _ _).2, (node_foot_frame _ _).2]; exact hdm1)]
    exact summarize_keeps_red _ _
      (by rw [(node_diet_frame _ _).2, (node_foot_frame _ _).2]; exact hdm1)
      (by rw [(node_diet_frame _ _).1, (node_foot_frame _ _).1]; exact hred)
  · rw [runNode_diet, runNode_amie, runNode_summ]
    rw [amie_noop _ _ (by rw [(node_diet_frame _ _).2]; exact hdm1)]
    exact summarize_keeps_red _ _
      (by rw [(node_diet_frame _ _).2]; exact hdm1)
      (by rw [(node_diet_frame _ _).1]; exact hred)
  · rw [runNode_summ]
    exact summarize_keeps_red _ _ hdm1 hred

/-- C4 witness: the amended theorem at a concrete non-diagnostic run
whose risk screen comes back RED. -/
theorem C4_witness :
    initDemo.diagnostic_mode = false ∧
    (node_risk_screen oracleA initDemo).severity = S "RED" ∧
    (runWorkflow oracleA initDemo).severity = S "RED" :=
  ⟨rfl, by decide, C4_red_monotone oracleA initDemo rfl (by decide)⟩

/-- C4 counterexample: in diagnostic mode, a RED risk severity is
replaced by the AMIE urgency ("LOW") in the final result — severity is
not monotone across the whole run. -/
theorem C4_counterexample :
    (node_risk_screen oracleA initDiag).severity = S "RED" ∧
    (runWorkflow oracleA initDiag).severity = S "LOW" ∧
    (S "LOW" : Str) ≠ S "RED" := by
  refine ⟨by decide, by decide, by decide⟩

/-- The completeness fraction lies in [0, 1]. -/
theorem check_completeness_bounds (d : PyDict) :
    0 ≤ (check_completeness d).1 ∧ (check_completeness d).1 ≤ 1 := by
  rw [check_completeness]
  split_ifs with h1 h2
  · constructor
    · positivity
    · apply div_le_one_of_le₀
      · exact_mod_cast List.length_filter_le _ _
      · positivity
  · constructor
    · positivity
    · apply div_le_one_of_le₀
      · exact_mod_cast List.length_filter_le _ _
      · positivity
  · simp only []
    by_cases h3 : d.length = 0
    · simp [h3]
    · simp only [if_neg h3]
      constructor
      · positivity
      · apply div_le_one_of_le₀
        · exact_mod_cast List.length_filter_le _ _
        · positivity

/-- Anatomy of a successful audit run: the four issue flags, the
completeness fraction, the chained confidences, the final payload and
the trace. -/
theorem audit_core_spec (d : PyDict) (core : AuditCore)
    (h : audit_core d = some core) :
    ∃ (b1 b2 b3 b4 : Bool) (comp c1 c2 c3 c4 : ℚ) (d2 : PyDict),
      0 ≤ comp ∧ comp ≤ 1 ∧ (b3 = true → comp < 7/10) ∧
      c1 = (if b1 then (1 : ℚ)/2 else 1) ∧
      c2 = (if b2 then c1 * (7/10) else c1) ∧
      c3 = (if b3 then c2 * comp else c2) ∧
      c4 = (if b4 then c3 * (4/5) else c3) ∧
      core.conf = c4 ∧
      core.finalData = add_disclaimers d2 c4 ∧
      core.trace = [(b1, 1, c1), (b2, c1, c2), (b3, c2, c3), (b4, c3, c4), (false, c4, c4)] := by
  rw [audit_core] at h
  rcases hvs : validate_structure d with _ | si
  · rw [hvs] at h
    simp at h
  · rw [hvs] at h
    simp only [Option.some_bind] at h
    by_cases hsv : si.isEmpty
    · simp only [hsv, if_true, Option.some_bind] at h
      rcases hdh : detect_hallucination d with _ | hi
      · rw [hdh] at h
        simp at h
      · rw [hdh] at h
        simp only [Option.some_bind] at h
        rcases hcc : check_consistency (if !hi.isEmpty then repair_hallucination d else d)
          with _ | ci
        · rw [hcc] at h
          simp at h
        · rw [hcc] at h
          simp only [Option.map_some'] at h
          have hrec := Option.some_inj.mp h
          subst hrec
          refine ⟨false, !hi.isEmpty,
            decide ((check_completeness (if !hi.isEmpty then repair_hallucination d else d)).1
              < (7/10 : ℚ)),
            !ci.isEmpty,
            (check_completeness (if !hi.isEmpty then repair_hallucination d else d)).1,
            _, _, _, _, (if !hi.isEmpty then repair_hallucination d else d),
            (check_completeness_bounds _).1, (check_completeness_bounds _).2,
            fun hb => of_decide_eq_true hb, rfl, rfl, rfl, rfl, ?_, ?_, ?_⟩
          · simp
          · simp
          · simp
    · simp only [hsv, if_false, Bool.false_eq_true] at h
      rcases hrp : repair_structure d with _ | d'
      · rw [hrp] at h
        simp at h
      · rw [hrp] at h
        simp only [Option.map_some', Option.some_bind] at h
        rcases hdh : detect_hallucination d' with _ | hi
        · rw [hdh] at h
          simp at h
        · rw [hdh] at h
          simp only [Option.some_bind] at h
          rcases hcc : check_consistency (if !hi.isEmpty then repair_hallucination d' else d')
            with _ | ci
          · rw [hcc] at h
            simp at h
          · rw [hcc] at h
            simp only [Option.map_some'] at h
            have hrec := Option.some_inj.mp h
            subst hrec
            refine ⟨true, !hi.isEmpty,
              decide ((check_completeness (if !hi.isEmpty then repair_hallucination d' else d')).1
                < (7/10 : ℚ)),
              !ci.isEmpty,
              (check_completeness (if !hi.isEmpty then repair_hallucination d' else d')).1,
              _, _, _, _, (if !hi.isEmpty then repair_hallucination d' else d'),
              (check_completeness_bounds _).1, (check_completeness_bounds _).2,
              fun hb => of_decide_eq_true hb, rfl, rfl, rfl, rfl, ?_, ?_, ?_⟩
            · simp
            · simp
            · simp

/-- C6 (amended): the confidence produced by Audit is at most 1.0, and
whenever a stage records an issue the confidence does not increase
across that stage, decreasing strictly whenever the confidence before
the stage is positive.  (At confidence zero a later issue stage leaves
it at zero, so the unconditional strict decrease of the original claim
fails.) -/
theorem C6_confidence_monotone (d : PyDict) (res : AuditRes)
    (tr : List (Bool × ℚ × ℚ))
    (hres : audit_extraction d = some res) (htr : auditConfTrace d = some tr) :
    res.confidence_score ≤ 1 ∧
    ∀ e ∈ tr, e.1 = true →
      e.2.2 ≤ e.2.1 ∧ (0 < e.2.1 → e.2.2 < e.2.1) := by
  rcases hcore : audit_core d with _ | core
  · rw [audit_extraction, hcore] at hres
    simp at hres
  · rw [audit_extraction, hcore] at hres
    rw [auditConfTrace, hcore] at htr
    simp only [Option.map_some'] at hres htr
    have h1 := Option.some_inj.mp hres
    have h2 := Option.some_inj.mp htr
    subst h1
    subst h2
    obtain ⟨b1, b2, b3, b4, comp, c1, c2, c3, c4, d2, hc0, hcle, hb3,
      e1, e2, e3, e4, hconf, hfd, htrace⟩ := audit_core_spec d core hcore
    have h0c1 : 0 ≤ c1 ∧ c1 ≤ 1 := by
      rw [e1]; split <;> norm_num
    have h0c2 : 0 ≤ c2 ∧ c2 ≤ 1 := by
      rw [e2]; split
      · exact ⟨by nlinarith [h0c1.1], by nlinarith [h0c1.1, h0c1.2]⟩
      · exact h0c1
    have h0c3 : 0 ≤ c3 ∧ c3 ≤ 1 := by
      rw [e3]; split
      · exact ⟨mul_nonneg h0c2.1 hc0, by nlinarith [h0c2.1, h0c2.2]⟩
      · exact h0c2
    have h0c4 : 0 ≤ c4 ∧ c4 ≤ 1 := by
      rw [e4]; split
      · exact ⟨by nlinarith [h0c3.1], by nlinarith [h0c3.1, h0c3.2]⟩
      · exact h0c3
    constructor
    · show core.conf ≤ 1
      rw [hconf]
      exact h0c4.2
    · intro e he hissue
      rw [htrace] at he
      simp only [List.mem_cons, List.not_mem_nil, or_false] at he
      rcases he with rfl | rfl | rfl | rfl | rfl
      · simp only at hissue
        rw [hissue] at e1
        simp only [if_true] at e1
        subst e1
        exact ⟨by norm_num, fun _ => by norm_num⟩
      · simp only at hissue
        rw [hissue] at e2
        simp only [if_true] at e2
        subst e2
        exact ⟨by nlinarith [h0c1.1], fun hp => by nlinarith⟩
      · simp only at hissue
        rw [hissue] at e3
        simp only [if_true] at e3
        subst e3
        have hlt : comp < 1 := lt_of_lt_of_le (hb3 hissue) (by norm_num)
        exact ⟨mul_le_of_le_one_right h0c2.1 hcle,
          fun hp => mul_lt_of_lt_one_right hp hlt⟩
      · simp only at hissue
        rw [hissue] at e4
        simp only [if_true] at e4
        subst e4
        exact ⟨by nlinarith [h0c3.1], fun hp => by nlinarith⟩
      · exact absurd hissue (by simp)

/-- C6 counterexample: for the payload with a null bill_date, stage 3
zeroes the confidence, and stage 4 records an issue while leaving the
confidence at zero — no strict decrease. -/
theorem C6_counterexample :
    auditConfTrace C6cex
      = some [(false, 1, 1), (false, 1, 1), (true, 1, 0), (true, 0, 0), (false, 0, 0)] ∧
    ¬ ((0 : ℚ) < 0) := by
  have hvs : validate_structure C6cex = some [] := by decide
  have hdh : detect_hallucination C6cex = some [] := by decide
  have hcc : check_consistency C6cex = some [S "Invalid date format: None"] := by decide
  have hcomp : (check_completeness C6cex).1 = 0 := by
    have h1 : hasKeyB (S "items") C6cex = false := by decide
    have h2 : hasKeyB (S "policy_number") C6cex = false := by decide
    rw [check_completeness, if_neg (by simp [h1]), if_neg (by simp [h2])]
    norm_num [C6cex, isExcludedVal]
  refine ⟨?_, by norm_num⟩
  rw [auditConfTrace, audit_core, hvs]
  simp only [Option.some_bind, List.isEmpty_nil, if_true, Bool.not_true,
    Bool.false_eq_true, if_false]
  rw [hdh]
  simp only [Option.some_bind, List.isEmpty_nil, Bool.not_true, Bool.false_eq_true,
    if_false, hcomp, hcc, Option.map_some']
  have hd : decide ((0 : ℚ) < 7/10) = true := decide_eq_true (by norm_num)
  simp only [hd, if_true]
  norm_num

/-- C6 witness: the amended theorem at the empty payload. -/
theorem C6_witness :
    audit_extraction [] = some auditEmptyRes ∧
    auditConfTrace [] = some auditEmptyTrace ∧
    (auditEmptyRes.confidence_score ≤ 1 ∧
      ∀ e ∈ auditEmptyTrace, e.1 = true →
        e.2.2 ≤ e.2.1 ∧ (0 < e.2.1 → e.2.2 < e.2.1)) :=
  ⟨rfl, rfl, C6_confidence_monotone [] auditEmptyRes auditEmptyTrace rfl rfl⟩

/-- Lookup after a dict assignment. -/
theorem dlook_dset (k k' : Str) (v : PyVal) (d : PyDict) :
    dlook k (dset k' v d) = if k = k' then some v else dlook k d := by
  induction d with
  | nil => simp [dset, dlook]
  | cons e rest ih =>
    by_cases he : k' = e.1
    · subst he
      by_cases hk : k = e.1 <;> simp [dset, dlook, hk]
    · by_cases hk : k = e.1
      · have hkk : ¬ k = k' := by
          rw [hk]
          intro hh
          exact he hh.symm
        simp only [dset, if_neg he, dlook, if_pos hk, if_neg hkk]
      · simp [dset, he, dlook, hk, ih]

/-- Writing a key makes it present. -/
theorem hasKeyB_dset_self (k : Str) (v : PyVal) (d : PyDict) :
    hasKeyB k (dset k v d) = true := by
  simp [hasKeyB, dlook_dset]

/-- Writing some key keeps every present key present. -/
theorem hasKeyB_dset_mono (k k' : Str) (v : PyVal) (d : PyDict)
    (h : hasKeyB k d = true) : hasKeyB k (dset k' v d) = true := by
  rw [hasKeyB, dlook_dset]
  by_cases hk : k = k'
  · simp [hk]
  · rw [if_neg hk]
    exact h

/-- The disclaimer stage always writes the three stage-5 keys. -/
theorem add_disclaimers_keys (d : PyDict) (conf : ℚ) :
    hasKeyB (S "disclaimer") (add_disclaimers d conf) = true ∧
    hasKeyB (S "confidence_level") (add_disclaimers d conf) = true ∧
    hasKeyB (S "confidence_score") (add_disclaimers d conf) = true := by
  refine ⟨?_, ?_, ?_⟩
  · exact hasKeyB_dset_mono _ _ _ _ (hasKeyB_dset_mono _ _ _ _ (hasKeyB_dset_self _ _ _))
  · exact hasKeyB_dset_mono _ _ _ _ (hasKeyB_dset_self _ _ _)
  · exact hasKeyB_dset_self _ _ _

/-- C10: the audit result aliases one mapping: original_data and
validated_data are the same dict, the stage-5 disclaimer, confidence
level and confidence score keys are written into it, and consequently a
pre-audit payload lacking the disclaimer key is not preserved anywhere
in the output. -/
theorem C10_aliased_output (d : PyDict) (res : AuditRes)
    (h : audit_extraction d = some res) :
    res.original_data = res.validated_data ∧
    hasKeyB (S "disclaimer") res.validated_data = true ∧
    hasKeyB (S "confidence_level") res.validated_data = true ∧
    hasKeyB (S "confidence_score") res.validated_data = true ∧
    (hasKeyB (S "disclaimer") d = false → res.validated_data ≠ d) := by
  rcases hcore : audit_core d with _ | core
  · rw [audit_extraction, hcore] at h
    simp at h
  · rw [audit_extraction, hcore] at h
    simp only [Option.map_some'] at h
    have h1 := Option.some_inj.mp h
    subst h1
    obtain ⟨b1, b2, b3, b4, comp, c1, c2, c3, c4, d2, _, _, _, _, _, _, _, _, hfd, _⟩ :=
      audit_core_spec d core hcore
    have hkeys := add_disclaimers_keys d2 c4
    refine ⟨rfl, ?_, ?_, ?_, ?_⟩
    · show hasKeyB (S "disclaimer") core.finalData = true
      rw [hfd]
      exact hkeys.1
    · show hasKeyB (S "confidence_level") core.finalData = true
      rw [hfd]
      exact hkeys.2.1
    · show hasKeyB (S "confidence_score") core.finalData = true
      rw [hfd]
      exact hkeys.2.2
    · intro hnone heq
      have heq' : core.finalData = d := heq
      have hk : hasKeyB (S "disclaimer") core.finalData = true := by
        rw [hfd]
        exact hkeys.1
      rw [heq', hnone] at hk
      exact Bool.false_ne_true hk

/-- C10 witness: the theorem at the empty payload (which lacks the
disclaimer key, so the output differs from the input). -/
theorem C10_witness :
    audit_extraction [] = some auditEmptyRes ∧
    (auditEmptyRes.original_data = auditEmptyRes.validated_data ∧
      hasKeyB (S "disclaimer") auditEmptyRes.validated_data = true ∧
      hasKeyB (S "confidence_level") auditEmptyRes.validated_data = true ∧
      hasKeyB (S "confidence_score") auditEmptyRes.validated_data = true ∧
      (hasKeyB (S "disclaimer") ([] : PyDict) = false →
        auditEmptyRes.validated_data ≠ ([] : PyDict))) :=
  ⟨rfl, C10_aliased_output [] auditEmptyRes rfl⟩
